import Mathlib

/-!
Shallow embedding of the client-side occupancy reconciliation logic of the
reading-hall dashboard. The embedded code lives in
frontend/src/components/Dashboard.js (the Dashboard component and the
SeatLayout component bundled in that file) and in
frontend/src/services/ApiService.js (startPolling). Pure render
computations become Lean functions; the stateful fetch/poll lifecycles
become explicit state-passing step functions on small state records.
Timestamps are millisecond epoch integers; JS number arithmetic on the
integer-valued quantities involved is exact, so Int/Nat model it faithfully,
with real division plus Math.floor rendered as the rational floor.
-/

/-- A seat record as returned by GET /api/halls/(id)/seats and consumed by
the SeatLayout component. -/
structure Seat where
  id : Int
  seat_number : String
  is_occupied : Bool
  is_available : Bool
  current_user_name : Option String
  check_in_time : Option Int
deriving DecidableEq

/-- An active-session row from GET /api/sessions/active, as consumed by the
Dashboard active-sessions table. -/
structure Session where
  id : Int
  user_name : String
  student_id : String
  seat_number : String
  hall_name : String
  check_in_time : Int
deriving DecidableEq

/-- A reading hall from GET /api/halls. -/
structure Hall where
  id : Int
  name : String
deriving DecidableEq

/-- The overview snapshot from GET /api/analytics/overview, mirroring the
initial useState record of the Dashboard component. -/
structure Overview where
  total_seats : Int
  occupied_seats : Int
  available_seats : Int
  occupancy_rate : Int
  sessions_today : Int
  avg_duration_minutes : Int
deriving DecidableEq

/-- One day of GET /api/analytics/usage. The average duration is nullable;
the code guards it with a falsy-check before rounding. -/
structure DailyUsageStat where
  date : String
  total_sessions : Int
  avg_duration : Option ℚ
deriving DecidableEq, Inhabited

/-- The seat-number template of renderSeatGrid for 1-based row number r and
1-based column number c: the string R r S c with the numbers printed in
decimal. The loop calls it with (row + 1) and (col + 1) for 0-based
indices. -/
def mkSeatNumber (r c : Nat) : String :=
  "R" ++ toString r ++ "S" ++ toString c

/-- One rendered grid row of renderSeatGrid: for each 0-based column below
seatsPerRow, the cell holds the first snapshot seat whose seat_number equals
the constructed number (Array find with strict string equality), or none for
the empty placeholder Box. -/
def renderRow (seats : List Seat) (row seatsPerRow : Nat) : List (Option Seat) :=
  (List.range seatsPerRow).map fun col =>
    seats.find? fun s => s.seat_number == mkSeatNumber (row + 1) (col + 1)

/-- renderSeatGrid of the SeatLayout component, generalized over the two loop
bounds; the source fixes rows = 5 and seatsPerRow = 10. -/
def renderSeatGrid (rows seatsPerRow : Nat) (seats : List Seat) :
    List (List (Option Seat)) :=
  (List.range rows).map fun row => renderRow seats row seatsPerRow

/-- occupiedSeats of SeatLayout: seats.filter(s occupied).length. -/
def occupiedSeats (seats : List Seat) : Nat :=
  (seats.filter fun s => s.is_occupied).length

/-- availableSeats of SeatLayout: seats.filter(s available and not
occupied).length. -/
def availableSeats (seats : List Seat) : Nat :=
  (seats.filter fun s => s.is_available && !s.is_occupied).length

/-- The per-session duration of the Dashboard table: Math.floor of
(now - check_in_time) / (1000 * 60), i.e. the rational floor, with the
check-in Date coerced to its millisecond epoch value. -/
def durationMinutes (s : Session) (now : Int) : Int :=
  ⌊((now - s.check_in_time : Int) : ℚ) / (1000 * 60)⌋

/-- One point of the usage chart state built by fetchUsageData. The short
human date label produced by the date-formatting library is presentational;
the embedding carries the raw date string through. -/
structure UsageChartPoint where
  date : String
  sessions : Int
  avgDuration : Int
deriving DecidableEq, Inhabited

/-- Math.round of JS on a rational: the floor of x + 1/2 (round half up). -/
def jsRound (q : ℚ) : Int := ⌊q + 1 / 2⌋

/-- The per-stat mapping inside fetchUsageData: sessions is copied, and the
average duration is rounded after the falsy guard that turns a null average
into 0. -/
def usageChartPoint (stat : DailyUsageStat) : UsageChartPoint :=
  { date := stat.date
    sessions := stat.total_sessions
    avgDuration := jsRound ((stat.avg_duration).getD 0) }

/-- fetchUsageData of the Dashboard component: map each daily stat to a chart
point, then reverse the whole list (the backend returns most-recent-first;
the chart wants chronological order). -/
def fetchUsageChartData (daily_stats : List DailyUsageStat) : List UsageChartPoint :=
  (daily_stats.map usageChartPoint).reverse

/-- The JS regex match of one-or-more digits against seat_number: the first
maximal run of decimal digits, or none when the string holds no digit (the
match call returns null). -/
def firstDigitRun (s : String) : Option String :=
  match s.data.dropWhile (fun c => !c.isDigit) with
  | [] => none
  | cs => some (String.mk (cs.takeWhile fun c => c.isDigit))

/-- Decimal value of a list of digit characters: the JS numeric coercion of
the matched digit string when it enters arithmetic. -/
def digitsToNat (cs : List Char) : Nat :=
  cs.foldl (fun n c => n * 10 + (c.toNat - 48)) 0

/-- The selected-seat Position line of SeatLayout: with n the numeric value
of the first digit run of seat_number, the displayed row is Math.ceil of
n / 10 and the displayed column is n mod 10 with a falsy-guard fallback to
10 when the remainder is 0. When the match is null, indexing it throws a
TypeError instead of producing a position; the embedding returns none
there. -/
def selectedSeatPosition (seat_number : String) : Option (Nat × Nat) :=
  match firstDigitRun seat_number with
  | none => none
  | some ds =>
    let n := digitsToNat ds.data
    some ((n + 9) / 10, if n % 10 == 0 then 10 else n % 10)

/-- The client-owned state of the SeatLayout component: the five useState
cells (halls, selectedHallId, seats, loading, selectedSeat). -/
structure SeatLayoutState where
  halls : List Hall
  selectedHallId : Int
  seats : List Seat
  loading : Bool
  selectedSeat : Option Seat
deriving DecidableEq

/-- The useState initial values of SeatLayout: no halls, selected hall id 1,
no seats, loading, no selected seat. -/
def initialSeatLayoutState : SeatLayoutState :=
  { halls := [], selectedHallId := 1, seats := [], loading := true,
    selectedSeat := none }

/-- JS truthiness of an integer-valued number: only 0 is falsy. -/
def truthyInt (n : Int) : Bool := n != 0

/-- The state update performed when the GET /api/halls response arrives in
fetchHalls: store the halls, and adopt the id of the first returned hall
only when the list is non-empty and the stored selectedHallId is falsy. -/
def fetchHallsApply (st : SeatLayoutState) (data : List Hall) : SeatLayoutState :=
  let st1 := { st with halls := data }
  match data with
  | [] => st1
  | first :: _ =>
    if !truthyInt st1.selectedHallId then { st1 with selectedHallId := first.id }
    else st1

/-- The synchronous part of selecting a hall: setSelectedHallId followed by
the selectedHallId effect, which for a truthy id starts fetchSeats by
setting loading and dispatching the request. The seats snapshot is not
touched at this point. -/
def selectHall (st : SeatLayoutState) (id : Int) : SeatLayoutState :=
  let st1 := { st with selectedHallId := id }
  if truthyInt st1.selectedHallId then { st1 with loading := true } else st1

/-- The state update when a GET /api/halls/(id)/seats response arrives in
fetchSeats: the snapshot is replaced wholesale and loading is cleared. -/
def fetchSeatsApply (st : SeatLayoutState) (data : List Seat) : SeatLayoutState :=
  { st with seats := data, loading := false }

/-- The outcome of one fetch: the parsed payload on success, or a failure
(network error, timeout, non-2xx), which the poll loop catches and only
logs. -/
inductive FetchOutcome (α : Type) where
  | success (data : α)
  | failure
deriving DecidableEq

/-- The events driving the polling lifecycle shared by ApiService
startPolling and the Dashboard interval effect: a scheduled interval tick,
the cleanup call (clearInterval), and the settling of an in-flight fetch. -/
inductive PollEvent (α : Type) where
  | tick
  | deactivate
  | resolve (r : FetchOutcome α)
deriving DecidableEq

/-- The state of one polling controller: whether clearInterval has run, how
many dispatched fetches are still unsettled, and the view state the success
callback writes to (none before the first successful fetch). -/
structure PollState (α : Type) where
  cancelled : Bool
  inFlight : Nat
  view : Option α
deriving DecidableEq

/-- On activation the controller runs one poll immediately (the initial call
before setInterval), so one fetch is already in flight. -/
def startPollState (α : Type) : PollState α :=
  { cancelled := false, inFlight := 1, view := none }

/-- One step of the polling lifecycle. A cleared interval never fires again,
so a tick after deactivation does nothing; an active tick runs the poll
closure and dispatches a fetch. When a fetch settles, the source checks no
cancellation token: on success the callback writes the payload to view state
unconditionally, on failure the catch block only logs and leaves all state
alone. -/
def pollStep {α : Type} (st : PollState α) (e : PollEvent α) : PollState α :=
  match e with
  | .tick => if st.cancelled then st else { st with inFlight := st.inFlight + 1 }
  | .deactivate => { st with cancelled := true }
  | .resolve r =>
    if st.inFlight == 0 then st
    else
      match r with
      | .success d => { st with inFlight := st.inFlight - 1, view := some d }
      | .failure => { st with inFlight := st.inFlight - 1 }

/-- Run a polling controller over a sequence of events. -/
def runPoll {α : Type} (st : PollState α) (es : List (PollEvent α)) : PollState α :=
  es.foldl pollStep st

/-- A concrete seat for witnesses: id 7, seat number R3S7, occupied,
available, no occupant, no check-in. -/
def sampleSeat : Seat := ⟨7, "R3S7", true, true, none, none⟩

/-- The overview snapshot of the end-to-end scenario of the spec. -/
def sampleOverview : Overview := ⟨50, 20, 30, 40, 12, 45⟩

/-- A concrete session for witnesses, checked in at epoch 0. -/
def sampleSession : Session := ⟨1, "Asha", "S1", "R1S1", "Main Hall", 0⟩

/-- A concrete hall for witnesses. -/
def hallB : Hall := ⟨2, "Hall B"⟩

/-- An Array-find returns the head of the filtered list: the first element
satisfying the predicate. -/
theorem find_eq_filter_head {α : Type} (p : α → Bool) (l : List α) :
    l.find? p = (l.filter p).head? := by
  induction l with
  | nil => rfl
  | cons a t ih =>
    cases hpa : p a
    · rw [List.find?_cons_of_neg _ (by simp [hpa]),
        List.filter_cons_of_neg (by simp [hpa]), ih]
    · rw [List.find?_cons_of_pos _ hpa, List.filter_cons_of_pos hpa,
        List.head?_cons]

/-- Claim C1: for every grid shape of R rows and C columns and every list of
seat records, renderSeatGrid produces exactly R rows of C cells each; the
cell at 0-based position (row, col) holds the first input seat whose
seat_number equals the constructed number for 1-based (row + 1, col + 1),
and the empty placeholder (none) when no such seat exists; and every input
seat whose seat_number matches no constructed number with 1-based row at
most R and column at most C appears in no cell. -/
theorem C1_seat_grid (R C : Nat) (seats : List Seat) :
    ((renderSeatGrid R C seats).length = R
      ∧ ∀ rowList ∈ renderSeatGrid R C seats, rowList.length = C)
    ∧ (∀ row col, row < R → col < C →
        ((renderSeatGrid R C seats).getD row []).getD col none
          = (seats.filter fun s =>
              s.seat_number == mkSeatNumber (row + 1) (col + 1)).head?)
    ∧ (∀ s ∈ seats,
        (∀ r c, 1 ≤ r → r ≤ R → 1 ≤ c → c ≤ C → s.seat_number ≠ mkSeatNumber r c) →
        ∀ rowList ∈ renderSeatGrid R C seats, some s ∉ rowList) := by
  refine ⟨⟨?_, ?_⟩, ?_, ?_⟩
  · simp [renderSeatGrid]
  · intro rowList hmem
    simp only [renderSeatGrid, List.mem_map, List.mem_range] at hmem
    obtain ⟨row, _, rfl⟩ := hmem
    simp [renderRow]
  · intro row col hr hc
    have h1 : (renderSeatGrid R C seats).getD row [] = renderRow seats row C := by
      rw [List.getD_eq_getElem _ _ (by simp [renderSeatGrid, hr])]
      simp [renderSeatGrid]
    rw [h1, List.getD_eq_getElem _ _ (by simp [renderRow, hc])]
    simp only [renderRow, List.getElem_map, List.getElem_range]
    exact find_eq_filter_head _ seats
  · intro s hs hpat rowList hrow hmem
    simp only [renderSeatGrid, List.mem_map, List.mem_range] at hrow
    obtain ⟨row, hrowR, rfl⟩ := hrow
    simp only [renderRow, List.mem_map, List.mem_range] at hmem
    obtain ⟨col, hcolC, hfind⟩ := hmem
    have hp := List.find?_some hfind
    exact hpat (row + 1) (col + 1) (by omega) (by omega) (by omega) (by omega)
      (eq_of_beq hp)

/-- Witness for C1 at the source grid shape 5 by 10 and a one-seat snapshot:
the cell at 0-based (2, 6) is the first filtered seat for number R3S7. -/
theorem C1_seat_grid_witness :
    2 < 5 ∧ 6 < 10 ∧
    ((renderSeatGrid 5 10 [sampleSeat]).getD 2 []).getD 6 none
      = ([sampleSeat].filter fun s => s.seat_number == mkSeatNumber 3 7).head? :=
  ⟨by decide, by decide,
    (C1_seat_grid 5 10 [sampleSeat]).2.1 2 6 (by decide) (by decide)⟩

/-- Floor of an integer divided by 60000 as a rational equals the Int
division of this toolchain, which is floor division for a positive
divisor. -/
theorem floor_div_sixtyThousand (m : Int) :
    ⌊(m : ℚ) / (1000 * 60)⌋ = m / (1000 * 60) := by
  have h := Rat.floor_intCast_div_natCast m 60000
  norm_num at h ⊢
  exact_mod_cast h

/-- Claim C5: the displayed duration is the floor of the elapsed
milliseconds over 60000 (stated through integer floor division); it is
monotonically non-decreasing in now for a fixed check-in time, equals 0
when now equals the check-in time, and is negative, not clamped, when the
check-in time lies in the future. -/
theorem C5_duration (s : Session) (now now2 : Int) :
    (durationMinutes s now = (now - s.check_in_time) / (1000 * 60))
    ∧ (now ≤ now2 → durationMinutes s now ≤ durationMinutes s now2)
    ∧ (now = s.check_in_time → durationMinutes s now = 0)
    ∧ (now < s.check_in_time → durationMinutes s now < 0) := by
  refine ⟨floor_div_sixtyThousand _, ?_, ?_, ?_⟩
  · intro h
    apply Int.floor_le_floor
    apply div_le_div_of_nonneg_right _ (by norm_num : (0 : ℚ) < 1000 * 60).le
    exact_mod_cast sub_le_sub_right h s.check_in_time
  · intro h
    simp [durationMinutes, h]
  · intro h
    rw [durationMinutes, Int.floor_lt]
    push_cast
    apply div_neg_of_neg_of_pos _ (by norm_num)
    exact_mod_cast sub_neg.mpr h

/-- Witness for C5: at a fixed check-in time 0, the duration at 120000 ms is
at most the duration at 180000 ms, and a check-in 60000 ms in the future
yields a negative duration. -/
theorem C5_duration_witness :
    ((120000 : Int) ≤ 180000
      ∧ durationMinutes sampleSession 120000 ≤ durationMinutes sampleSession 180000)
    ∧ ((-60000 : Int) < sampleSession.check_in_time
      ∧ durationMinutes sampleSession (-60000) < 0) :=
  ⟨⟨by decide, (C5_duration sampleSession 120000 180000).2.1 (by decide)⟩,
   ⟨by decide, (C5_duration sampleSession (-60000) 0).2.2.2 (by decide)⟩⟩

/-- Claim C6: fetchUsageData is total, producing one chart point per daily
stat; the points come out in reversed (chronological) order, the point at
output index i being the transform of the input at index length - 1 - i;
a null average duration yields 0 and a present average is rounded to the
nearest integer (half up). -/
theorem C6_usage (stats : List DailyUsageStat) :
    (fetchUsageChartData stats).length = stats.length
    ∧ (∀ i, i < stats.length →
        (fetchUsageChartData stats).getD i default
          = usageChartPoint (stats.getD (stats.length - 1 - i) default))
    ∧ (∀ stat : DailyUsageStat, stat.avg_duration = none →
        (usageChartPoint stat).avgDuration = 0)
    ∧ (∀ stat : DailyUsageStat, ∀ q : ℚ, stat.avg_duration = some q →
        (usageChartPoint stat).avgDuration = round q) := by
  refine ⟨by simp [fetchUsageChartData], ?_, ?_, ?_⟩
  · intro i hi
    have hlen : (stats.map usageChartPoint).length = stats.length :=
      List.length_map _ _
    rw [fetchUsageChartData,
      List.getD_eq_getElem _ _ (by simp [hi]),
      List.getElem_reverse, List.getElem_map,
      List.getD_eq_getElem _ _ (by omega)]
    simp [hlen]
  · intro stat h
    simp [usageChartPoint, jsRound, h]
    norm_num
  · intro stat q h
    simp [usageChartPoint, jsRound, h, round_eq]

/-- Concrete daily stats for the C6 witness: most-recent-first input
D3, D2, D1, with a null average on D2. -/
def statD1 : DailyUsageStat := ⟨"D1", 1, some (3 / 2)⟩

/-- Second witness stat, with a null average duration. -/
def statD2 : DailyUsageStat := ⟨"D2", 2, none⟩

/-- Third witness stat. -/
def statD3 : DailyUsageStat := ⟨"D3", 3, some 10⟩

/-- Witness for C6 on the input D3, D2, D1: the first output point is the
transform of the last input (D1), so the output is chronological; and the
null average of D2 yields 0. -/
theorem C6_usage_witness :
    (0 < [statD3, statD2, statD1].length
      ∧ (fetchUsageChartData [statD3, statD2, statD1]).getD 0 default
          = usageChartPoint ([statD3, statD2, statD1].getD 2 default))
    ∧ (statD2.avg_duration = none ∧ (usageChartPoint statD2).avgDuration = 0) :=
  ⟨⟨by decide, (C6_usage [statD3, statD2, statD1]).2.1 0 (by decide)⟩,
   ⟨rfl, (C6_usage []).2.2.1 statD2 rfl⟩⟩

/-- Claim C7: the derived occupied count is the number of seats whose
occupied flag is true and the derived available count is the number of
seats whose available flag is true and occupied flag false; both are pure
per-snapshot functions, so applying the same snapshot twice yields
identical counts and an identical grid. -/
theorem C7_counts (seats : List Seat) :
    occupiedSeats seats = seats.countP (fun s => s.is_occupied)
    ∧ availableSeats seats = seats.countP (fun s => s.is_available && !s.is_occupied)
    ∧ (occupiedSeats seats, availableSeats seats, renderSeatGrid 5 10 seats)
        = (occupiedSeats seats, availableSeats seats, renderSeatGrid 5 10 seats) := by
  refine ⟨?_, ?_, rfl⟩ <;>
    simp [occupiedSeats, availableSeats, List.countP_eq_length_filter]

/-- Claim C10: the position derivation is defined exactly when seat_number
holds at least one decimal digit. With no digit, the regex match is null and
indexing it throws, so no position is produced (none); with at least one
digit a position is produced. -/
theorem C10_position_needs_digit (sn : String) :
    ((∀ c ∈ sn.data, ¬ c.isDigit) → selectedSeatPosition sn = none)
    ∧ ((∃ c ∈ sn.data, c.isDigit) → (selectedSeatPosition sn).isSome = true) := by
  constructor
  · intro h
    have hdrop : sn.data.dropWhile (fun c => !c.isDigit) = [] :=
      List.dropWhile_eq_nil_iff.mpr (by simpa using h)
    simp [selectedSeatPosition, firstDigitRun, hdrop]
  · intro h
    cases hdrop : sn.data.dropWhile (fun c => !c.isDigit) with
    | nil =>
      obtain ⟨c, hc, hdig⟩ := h
      have := List.dropWhile_eq_nil_iff.mp hdrop c hc
      simp [hdig] at this
    | cons a t =>
      simp [selectedSeatPosition, firstDigitRun, hdrop]

/-- Witness for C10: the digit-free seat number SEAT produces no position,
and the seat number R3S7 produces one. -/
theorem C10_position_needs_digit_witness :
    (∀ c ∈ ("SEAT" : String).data, ¬ c.isDigit)
    ∧ selectedSeatPosition "SEAT" = none :=
  ⟨by decide, (C10_position_needs_digit "SEAT").1 (by decide)⟩

/-- Claim C3, against the code: the selected-seat Position derivation is NOT
the inverse of the grid seat-number mapping. The regex match picks only the
first digit run, so seat number R3S7 displays as row 1, column 3 (the claim
says row 3, column 7) and seat number R1S10 displays as column 1 (the claim
says column 10), even though the grid model itself constructs R3S7 for
1-based position (3, 7). -/
theorem C3_position_code_eval :
    selectedSeatPosition "R3S7" = some (1, 3)
    ∧ selectedSeatPosition "R1S10" = some (1, 1)
    ∧ mkSeatNumber 3 7 = "R3S7"
    ∧ ((1, 3) : Nat × Nat) ≠ (3, 7) := by decide

/-- Claim C9 counterexample: starting from the initial state, whose
selectedHallId is the fallback 1 and therefore truthy, applying a halls
response whose first hall has id 2 leaves the selected hall id at 1; it does
not default to the first returned hall. -/
theorem C9_counterexample :
    (fetchHallsApply initialSeatLayoutState [hallB]).selectedHallId = 1
    ∧ hallB.id = 2 ∧ (1 : Int) ≠ 2 := by decide

/-- Claim C9 amended: the selected hall id starts at the fixed fallback 1,
and because that value is truthy the first-returned-hall branch of
fetchHalls never fires: after any halls response the selection still holds
the fallback; in general any truthy stored id survives fetchHalls
unchanged. -/
theorem C9_amended (data : List Hall) :
    (fetchHallsApply initialSeatLayoutState data).selectedHallId = 1
    ∧ (∀ st : SeatLayoutState, truthyInt st.selectedHallId = true →
        (fetchHallsApply st data).selectedHallId = st.selectedHallId) := by
  constructor
  · cases data <;> simp [fetchHallsApply, initialSeatLayoutState, truthyInt]
  · intro st h
    cases data <;> simp [fetchHallsApply, h]

/-- Witness for C9 amended: the initial selected hall id is truthy, and a
halls fetch returning hall B leaves it unchanged. -/
theorem C9_amended_witness :
    truthyInt initialSeatLayoutState.selectedHallId = true
    ∧ (fetchHallsApply initialSeatLayoutState [hallB]).selectedHallId
        = initialSeatLayoutState.selectedHallId :=
  ⟨by decide, (C9_amended [hallB]).2 initialSeatLayoutState (by decide)⟩

/-- Claim C4 counterexample: with the snapshot of hall A loaded (the single
seat R3S7), selecting hall B leaves that snapshot in place — the seats state
still holds the hall A seat before the hall B response arrives, so the claim
that the old snapshot is cleared before the response is false. -/
theorem C4_counterexample :
    (selectHall { initialSeatLayoutState with seats := [sampleSeat] } 2).seats
      = [sampleSeat]
    ∧ [sampleSeat] ≠ ([] : List Seat) := by decide

/-- Claim C4 amended: selecting hall B triggers the immediate re-fetch
(loading is set for a truthy id) but does NOT clear the old snapshot: the
seats of hall A stay displayed until the hall B response arrives, and only
then is the snapshot replaced wholesale by the response data, so from that
point no hall A seat remains. -/
theorem C4_amended (st : SeatLayoutState) (b : Int) (data : List Seat) :
    (selectHall st b).seats = st.seats
    ∧ (truthyInt b = true → (selectHall st b).loading = true)
    ∧ (fetchSeatsApply (selectHall st b) data).seats = data := by
  refine ⟨?_, ?_, rfl⟩
  · rw [selectHall]
    split <;> rfl
  · intro h
    simp [selectHall, h]

/-- Witness for C4 amended: selecting hall 2 (truthy) from the initial state
sets loading. -/
theorem C4_amended_witness :
    truthyInt 2 = true ∧ (selectHall initialSeatLayoutState 2).loading = true :=
  ⟨by decide, (C4_amended initialSeatLayoutState 2 []).2.1 (by decide)⟩

/-- After deactivation (clearInterval), one step of the polling lifecycle
keeps the controller deactivated and never dispatches a new fetch. -/
theorem pollStep_after_deactivation {α : Type} (st : PollState α) (e : PollEvent α)
    (h : st.cancelled = true) :
    (pollStep st e).cancelled = true ∧ (pollStep st e).inFlight ≤ st.inFlight := by
  cases e with
  | tick => simp [pollStep, h]
  | deactivate => simp [pollStep, h]
  | resolve r =>
    cases r <;> simp only [pollStep] <;> split <;> simp [h]

/-- Along any event sequence after deactivation the controller stays
deactivated and the number of in-flight fetches never grows: no new fetch is
ever dispatched. -/
theorem runPoll_after_deactivation {α : Type} (st : PollState α)
    (es : List (PollEvent α)) (h : st.cancelled = true) :
    (runPoll st es).cancelled = true ∧ (runPoll st es).inFlight ≤ st.inFlight := by
  induction es generalizing st with
  | nil => exact ⟨h, le_refl _⟩
  | cons e t ih =>
    have hs := pollStep_after_deactivation st e h
    have ht := ih (pollStep st e) hs.1
    exact ⟨ht.1, le_trans ht.2 hs.2⟩

/-- Claim C2 counterexample: start the controller (its initial fetch is in
flight), run the cleanup (clearInterval), then let that fetch resolve
successfully. The payload IS written to view state; nothing in the source
discards the late result, so the discard clause of the claim is false. -/
theorem C2_counterexample :
    (runPoll (startPollState Overview)
        [PollEvent.deactivate, PollEvent.resolve (FetchOutcome.success sampleOverview)]).view
      = some sampleOverview
    ∧ some sampleOverview ≠ (startPollState Overview).view := by decide

/-- Claim C2 amended: after deactivation no further fetch is ever issued — a
tick of the cleared interval is a no-op, and along any later event sequence
the in-flight count never grows — but the result of a fetch that was in
flight at deactivation and resolves afterwards is still applied to view
state: the source checks no cancellation token at the apply step. -/
theorem C2_deactivation (α : Type) (st : PollState α) (es : List (PollEvent α))
    (d : α) :
    (st.cancelled = true → pollStep st PollEvent.tick = st)
    ∧ (st.cancelled = true →
        (runPoll st es).cancelled = true ∧ (runPoll st es).inFlight ≤ st.inFlight)
    ∧ (st.cancelled = true → 0 < st.inFlight →
        (pollStep st (PollEvent.resolve (FetchOutcome.success d))).view = some d) := by
  refine ⟨?_, runPoll_after_deactivation st es, ?_⟩
  · intro h
    simp [pollStep, h]
  · intro h hf
    have hne : st.inFlight ≠ 0 := by omega
    simp [pollStep, hne]

/-- Witness for C2 amended at a deactivated controller with one in-flight
fetch: the late successful resolution still writes the payload. -/
theorem C2_deactivation_witness :
    (⟨true, 1, none⟩ : PollState Overview).cancelled = true
    ∧ 0 < (⟨true, 1, none⟩ : PollState Overview).inFlight
    ∧ (pollStep (⟨true, 1, none⟩ : PollState Overview)
        (PollEvent.resolve (FetchOutcome.success sampleOverview))).view
        = some sampleOverview :=
  ⟨rfl, by decide,
    (C2_deactivation Overview (⟨true, 1, none⟩ : PollState Overview) []
      sampleOverview).2.2 rfl (by decide)⟩

/-- Claim C8: a failed fetch leaves the displayed view state unchanged (the
last successful snapshot is retained), does not deactivate the loop, and the
next scheduled tick still fires and dispatches a fetch. The step function is
total, so no event crashes the loop. -/
theorem C8_fetch_failure (α : Type) (st : PollState α) (h : st.cancelled = false) :
    (pollStep st (PollEvent.resolve FetchOutcome.failure)).view = st.view
    ∧ (pollStep st (PollEvent.resolve FetchOutcome.failure)).cancelled = false
    ∧ (pollStep (pollStep st (PollEvent.resolve FetchOutcome.failure))
        PollEvent.tick).inFlight
        = (pollStep st (PollEvent.resolve FetchOutcome.failure)).inFlight + 1 := by
  have hres : (pollStep st (PollEvent.resolve FetchOutcome.failure)).view = st.view
      ∧ (pollStep st (PollEvent.resolve FetchOutcome.failure)).cancelled
          = st.cancelled := by
    simp only [pollStep]
    split <;> exact ⟨rfl, rfl⟩
  refine ⟨hres.1, hres.2.trans h, ?_⟩
  have hc := hres.2.trans h
  generalize pollStep st (PollEvent.resolve FetchOutcome.failure) = st1 at hc ⊢
  simp [pollStep, hc]

/-- Witness for C8 at a freshly started controller whose initial fetch
fails: the view state is unchanged by the failure. -/
theorem C8_fetch_failure_witness :
    (startPollState Overview).cancelled = false
    ∧ (pollStep (startPollState Overview) (PollEvent.resolve FetchOutcome.failure)).view
        = (startPollState Overview).view :=
  ⟨rfl, (C8_fetch_failure Overview (startPollState Overview) rfl).1⟩
